import Mathlib

/-!
Shallow embedding of `scripts/pyfastlane.py` (and the `appPublish.Config`
dataclasses) from the pyfastlane repository.

Modelling conventions:
* Python exceptions become an explicit `Except PyExc` result; `exit(1)` is the
  uncatchable-by-`except KeyError` exception `PyExc.systemExit 1`.
* Every effectful method of class `App` becomes a state-passing function
  `StM α := Env → Trace → Trace × Except PyExc α`.  `Env` packages the external
  collaborators (shell exit codes, git status output, the App Store Connect
  session results, agvtool outputs, interactive input), `Trace` records the
  observable effects (commands handed to `os.system`, log records, printed
  lines, files and directories written).
* Strings handed to `os.system` are built exactly as the source builds its
  f-strings (including the `> command.log 2>&1` redirection that `execute`
  appends in silent mode).
* `SemanticVersion.fromString` splits on a dot and passes the raw substrings to
  the dataclass constructor, exactly as the source does, so the three fields of
  the embedded `SemanticVersion` are strings and the comparisons are Python
  string comparisons (code-point lexicographic).  The dataclass type
  annotations in the source declare `int` fields, but Python does not enforce
  annotations and nothing in the source converts the substrings.
-/

namespace Pyfastlane

/-- Python exception classes that the embedded code can raise.  `systemExit n`
models `exit(n)`; `remoteUnavailable` models a network or auth failure raised
inside the external `appstoreconnect` collaborator; `keyError` can come from a
dict lookup or from inside the external collaborator as well. -/
inductive PyExc where
  | keyError
  | typeError
  | valueError
  | indexError
  | attributeError
  | remoteUnavailable
  | systemExit (code : Nat)
deriving DecidableEq

/-- Severity of a `logging` call in the source. -/
inductive LogLevel where
  | info
  | warning
  | error
deriving DecidableEq

/-- Observable effects accumulated by a run: the command strings handed to
`os.system` (in order, with the redirection suffix `execute` appends), the log
records, the lines printed to stdout, the files written and the directories
created. -/
structure Trace where
  cmds : List String
  logs : List (LogLevel × String)
  printed : List String
  files : List (String × String)
  dirs : List String
deriving DecidableEq

/-- The empty starting trace. -/
def emptyTrace : Trace := { cmds := [], logs := [], printed := [], files := [], dirs := [] }

/-- Appends one log record, modelling a `logging.info` and similar call. -/
def logMsg (tr : Trace) (lvl : LogLevel) (msg : String) : Trace :=
  { tr with logs := tr.logs ++ [(lvl, msg)] }

/-- Appends one printed line, modelling a `print` call (or the prompt echoed by
`input`). -/
def printLine (tr : Trace) (s : String) : Trace :=
  { tr with printed := tr.printed ++ [s] }

/-! Python string primitives, implemented by structural recursion on the
character list so that concrete evaluations reduce inside the kernel. -/

/-- Helper for `pySplit`: walks the character list accumulating the current
piece (in reverse). -/
def pySplitAux (sep : Char) : List Char → List Char → List String
  | [], acc => [String.mk acc.reverse]
  | c :: cs, acc =>
    if c == sep then String.mk acc.reverse :: pySplitAux sep cs []
    else pySplitAux sep cs (c :: acc)

/-- Python `s.split(sep)` for a one-character separator: `"".split(sep)` is
`[""]`, separators at the ends produce empty pieces. -/
def pySplit (sep : Char) (s : String) : List String :=
  pySplitAux sep s.toList []

/-- Python string comparison `<` on the underlying character lists: code-point
lexicographic, a proper prefix is smaller. -/
def pyCharsLt : List Char → List Char → Bool
  | [], [] => false
  | [], _ :: _ => true
  | _ :: _, [] => false
  | c :: cs, d :: ds =>
    if c.val < d.val then true
    else if d.val < c.val then false
    else pyCharsLt cs ds

/-- Python `a < b` on strings. -/
def pyStrLt (a b : String) : Bool :=
  pyCharsLt a.toList b.toList

/-- Helper for `pyInt`: folds decimal digits, failing on any non-digit. -/
def pyIntAux : List Char → Nat → Option Nat
  | [], acc => some acc
  | c :: cs, acc =>
    if 48 ≤ c.val ∧ c.val ≤ 57 then pyIntAux cs (acc * 10 + (c.toNat - 48))
    else none

/-- Python `int(s)` on the decimal digit strings the distribution service uses
as build labels; a string that is empty or holds a non-digit raises
`ValueError` (modelled as `none`).  The sign and surrounding-whitespace forms
`int` also accepts never occur on this code path. -/
def pyInt (s : String) : Option Nat :=
  match s.toList with
  | [] => none
  | cs => pyIntAux cs 0

/-- Python `f-string` padding `{s:N}` / `{s:Ns}`: left-justify to minimum width
`w` with spaces. -/
def padR (s : String) (w : Nat) : String :=
  s ++ String.mk (List.replicate (w - s.length) (' '))

/-- Python `sep.join(parts)`. -/
def joinWith (sep : String) : List String → String
  | [] => ""
  | [x] => x
  | x :: y :: rest => x ++ sep ++ joinWith sep (y :: rest)

/-- Python `max(xs, key=k)` over strings compared by `<`: `none` on an empty
list (where Python raises `ValueError`), otherwise the first element with the
maximal key, as Python's `max` keeps the earliest maximum. -/
def pyMax {α : Type} (key : α → String) : List α → Option α
  | [] => none
  | x :: xs => some (xs.foldl (fun best y => if pyStrLt (key best) (key y) then y else best) x)

/-! The `SemanticVersion` dataclass (source lines 57-91). -/

/-- The `SemanticVersion` dataclass.  The source annotates the fields as `int`,
but `fromString` passes the raw substrings of the version string to the
constructor and Python never enforces or converts, so every value actually
constructed by the program carries strings; the embedding therefore gives the
fields type `String`. -/
structure SemanticVersion where
  major : String
  minor : String
  patch : String
deriving DecidableEq

/-- `SemanticVersion.fromString`: `parts = string.split('.')` followed by
`SemanticVersion(*parts)`.  With exactly three parts the dataclass constructor
accepts them unchecked; with any other number of parts the call raises
`TypeError` (wrong argument count).  No numeric validation happens. -/
def SemanticVersion.fromString (string : String) : Except PyExc SemanticVersion :=
  match pySplit ('.') string with
  | [a, b, c] => Except.ok { major := a, minor := b, patch := c }
  | _ => Except.error PyExc.typeError

/-- `SemanticVersion.__lt__`, translated branch by branch.  The fourth test in
the source re-checks `self.major > other.major` where the lexicographic order
would check `self.minor > other.minor`, so when the majors are equal and
`self.minor > other.minor` control falls through to the patch comparison. -/
def SemanticVersion.lt (self other : SemanticVersion) : Bool :=
  if pyStrLt self.major other.major then true
  else if pyStrLt other.major self.major then false
  else if pyStrLt self.minor other.minor then true
  else if pyStrLt other.major self.major then false
  else pyStrLt self.patch other.patch

/-- `SemanticVersion.__eq__`: component-wise equality. -/
def SemanticVersion.eq (self other : SemanticVersion) : Bool :=
  self.major == other.major && self.minor == other.minor && self.patch == other.patch

/-- `SemanticVersion.__gt__`: `not (self < other or self == other)`. -/
def SemanticVersion.gt (self other : SemanticVersion) : Bool :=
  !(SemanticVersion.lt self other || SemanticVersion.eq self other)

/-- `SemanticVersion.__le__`: `self < other or self == other`. -/
def SemanticVersion.le (self other : SemanticVersion) : Bool :=
  SemanticVersion.lt self other || SemanticVersion.eq self other

/-- `SemanticVersion.__str__`: the canonical dotted rendering. -/
def SemanticVersion.str (self : SemanticVersion) : String :=
  self.major ++ "." ++ self.minor ++ "." ++ self.patch

/-! Records returned by the external `appstoreconnect` collaborator. -/

/-- The `attributes` object of a build record: the uploaded build label and the
upload timestamp (an ISO string, compared as a string by `max`). -/
structure BuildAttributes where
  version : String
  uploadedDate : String
deriving DecidableEq

/-- One build known to the distribution service. -/
structure Build where
  attributes : BuildAttributes
deriving DecidableEq

/-- The `attributes` object of an app-store-version record. -/
structure VersionAttributes where
  versionString : String
  createdDate : String
  appStoreState : String
deriving DecidableEq

/-- One app-store-version entry known to the distribution service. -/
structure AppStoreVersion where
  attributes : VersionAttributes
deriving DecidableEq

/-- The per-app configuration the `App` constructor reads from `app.ini` via
`configparser` and `DefaultMunch`.  All ini values are strings; a missing
optional key yields `None`, hence the `Option` fields.  `path` is the
directory argument holding `app.ini`. -/
structure Config where
  workspace : Option String
  project : String
  scheme : String
  app_id : String
  bundle_id : String
  username : String
  team_name : String
  uses_encryption : Option String
  uses_idfa : Option String
  screenshot_devices : List String
  screenshot_languages : List String
  path : String

/-- The external world an `App` run interacts with: the parsed configuration,
whether the `git` executable exists, the output lines of
`git status --porcelain`, the exit status `os.system` reports for each command
string, the results of the two App Store Connect queries (`Except.error e`
models the session call raising `e`), the version and build strings `agvtool`
reports, the operator's `input()` answer, `$HOME`, the number of files
`glob.glob` finds for a pattern, and the local-timezone rendering of a date
string. -/
structure Env where
  cfg : Config
  gitAvailable : Bool
  gitStatusLines : List String
  cmdExit : String → Int
  buildsFetch : Except PyExc (List Build)
  versionsFetch : Except PyExc (List AppStoreVersion)
  localVersion : String
  localBuild : String
  userInput : String
  homeDir : String
  globCount : String → Nat
  localTime : String → String

/-- A computation of the program: reads the environment, threads the trace,
and either returns a value or stops with an exception. -/
def StM (α : Type) : Type :=
  Env → Trace → Trace × Except PyExc α

/-- Returning without any effect. -/
def stPure {α : Type} (a : α) : StM α :=
  fun _ tr => (tr, Except.ok a)

/-- Sequencing: an exception in the first computation skips the second, keeping
the effects already produced (Python does not roll back side effects). -/
def stBind {α β : Type} (x : StM α) (f : α → StM β) : StM β :=
  fun env tr =>
    match x env tr with
    | (tr2, Except.ok a) => f a env tr2
    | (tr2, Except.error e) => (tr2, Except.error e)

/-- A `logging.info` statement. -/
def logInfoM (msg : String) : StM Unit :=
  fun _ tr => (logMsg tr LogLevel.info msg, Except.ok ())

/-- A `logging.warning` statement. -/
def logWarningM (msg : String) : StM Unit :=
  fun _ tr => (logMsg tr LogLevel.warning msg, Except.ok ())

/-- A `logging.error` statement. -/
def logErrorM (msg : String) : StM Unit :=
  fun _ tr => (logMsg tr LogLevel.error msg, Except.ok ())

/-- A `print` statement. -/
def printM (s : String) : StM Unit :=
  fun _ tr => (printLine tr s, Except.ok ())

/-- Python `input(prompt)`: echoes the prompt and returns the operator's
answer. -/
def inputM (prompt : String) : StM String :=
  fun env tr => (printLine tr prompt, Except.ok env.userInput)

/-- Python `exit(n)`: raises `SystemExit`, which no handler in this program
catches, so the process terminates with status `n`. -/
def pyExitM (n : Nat) : StM Unit :=
  fun _ tr => (tr, Except.error (PyExc.systemExit n))

/-- An `open(path, 'w').write(content)` statement. -/
def writeFileM (path content : String) : StM Unit :=
  fun _ tr => ({ tr with files := tr.files ++ [(path, content)] }, Except.ok ())

/-- An `os.makedirs(path, exist_ok=True)` statement. -/
def makedirsM (path : String) : StM Unit :=
  fun _ tr => ({ tr with dirs := tr.dirs ++ [path] }, Except.ok ())

/-- A `glob.glob(pattern)` query, observed through its hit count only. -/
def globCountM (pattern : String) : StM Nat :=
  fun env tr => (tr, Except.ok (env.globCount pattern))

/-- Python `int(s)` as a statement: `ValueError` on a malformed literal. -/
def pyIntM (s : String) : StM Nat :=
  fun _ tr =>
    match pyInt s with
    | some n => (tr, Except.ok n)
    | none => (tr, Except.error PyExc.valueError)

/-- `SemanticVersion.fromString` as a statement: the `TypeError` it raises on a
wrong component count aborts the surrounding computation. -/
def fromStringM (s : String) : StM SemanticVersion :=
  fun _ tr =>
    match SemanticVersion.fromString s with
    | Except.ok v => (tr, Except.ok v)
    | Except.error e => (tr, Except.error e)

/-! Module-level helpers of the script. -/

/-- The module constant `fastlaneCommand`. -/
def fastlaneCommand : String := "bundle exec fastlane"

/-- The log file name local to `execute`. -/
def output_filename : String := "command.log"

/-- The command string `execute` actually hands to `os.system`: in silent mode
the source appends a redirection of all output into the log file. -/
def fullCommand (cmd : String) (silent : Bool) : String :=
  if silent then cmd ++ " > " ++ output_filename ++ " 2>&1" else cmd

/-- The module function `execute(cmd, silent=True)`: logs the command, runs it
through `os.system`, and on a non-zero exit status logs three error records and
calls `exit(1)`, so nothing after a failed command ever runs. -/
def execute (cmd : String) (silent : Bool) : StM Unit :=
  fun env tr =>
    let tr := logMsg tr LogLevel.info cmd
    let fullCmd := fullCommand cmd silent
    let tr := { tr with cmds := tr.cmds ++ [fullCmd] }
    let result := env.cmdExit fullCmd
    if result = 0 then (tr, Except.ok ())
    else
      let tr := logMsg tr LogLevel.error ("Command failed: " ++ fullCmd)
      let tr := logMsg tr LogLevel.error ("Exit code: " ++ toString result)
      let tr := logMsg tr LogLevel.error ("Output is in file " ++ output_filename)
      (tr, Except.error (PyExc.systemExit 1))

/-- The module function `git_is_clean`: logs the status command, and reports
whether `git status --porcelain` printed no lines; a missing `git` executable
(`FileNotFoundError` from `Popen`) is logged and terminates the process. -/
def git_is_clean : StM Bool :=
  fun env tr =>
    let tr := logMsg tr LogLevel.info ("git status --porcelain")
    if env.gitAvailable then (tr, Except.ok (env.gitStatusLines.length == 0))
    else (logMsg tr LogLevel.error ("FileNotFoundError"), Except.error (PyExc.systemExit 1))

/-- The module function `git_commit(msg)`. -/
def git_commit (msg : String) : StM Unit :=
  execute ("git commit -a -m \"" ++ msg ++ "\"") true

/-- The module function `get_filename_body`: basename without its extension.
`basename` keeps what follows the last slash; the extension split copies
`os.path.splitext`, which refuses to split when everything before the last dot
is itself dots. -/
def get_filename_body (full_path : String) : String :=
  let base := (pySplit ('/') full_path).getLastD full_path
  match pySplit ('.') base with
  | [] => base
  | [x] => x
  | parts =>
    let root := joinWith "." parts.dropLast
    if root.toList.all (fun c => c == '.') then base else root

/-! Values the `App` constructor derives from the configuration. -/

/-- The `'-workspace …'` parameter `build_ipa` and `snapshot` derive from the
optional workspace setting. -/
def workspaceParamOf (cfg : Config) : String :=
  match cfg.workspace with
  | some w => "-workspace " ++ w
  | none => ""

/-- The `workspace:"…"` parameter the snapshot lane derives from the optional
workspace setting. -/
def snapshotWorkspaceParamOf (cfg : Config) : String :=
  match cfg.workspace with
  | some w => "workspace:\"" ++ w ++ "\""
  | none => ""

/-- How an ini value lands in the submission-information JSON: the constructor
evaluates `value or False`, so an absent key or empty string serializes as
`false` while any other ini string (all ini values are strings) serializes as
a JSON string. -/
def pyJsonOrFalse : Option String → String
  | none => "false"
  | some s => if s = "" then "false" else "\"" ++ s ++ "\""

/-- The `submission_information_string` JSON built in the constructor with
`json.dumps` (default separators). -/
def submission_information_string (cfg : Config) : String :=
  "\x7b\"export_compliance_uses_encryption\": " ++ pyJsonOrFalse cfg.uses_encryption ++
    ", \"add_id_info_uses_idfa\": " ++ pyJsonOrFalse cfg.uses_idfa ++ "\x7d"

/-- The `deliver_options` string the constructor joins once and every
`deliver` invocation reuses. -/
def deliver_options (cfg : Config) : String :=
  joinWith " "
    ["--force",
     "--run_precheck_before_submit false",
     "--username " ++ cfg.username,
     "--team_name \"" ++ cfg.team_name ++ "\"",
     "--submission_information \x27" ++ submission_information_string cfg ++ "\x27",
     "--metadata_path \x27" ++ cfg.path ++ "/fastlane/metadata\x27",
     "--app_identifier " ++ cfg.bundle_id]

/-- The `temp_dir_name` field computed in the constructor. -/
def temp_dir_name (cfg : Config) : String :=
  get_filename_body cfg.project ++ "-" ++ cfg.scheme

/-! Methods of class `App`. -/

/-- `App._get_version_number`: queries
`agvtool what-marketing-version -terse` in a subprocess and strips the
marketing version out of its first output line; the environment supplies the
resulting string, the subprocess being an external collaborator. -/
def _get_version_number : StM String :=
  fun env tr => (tr, Except.ok env.localVersion)

/-- `App._get_build_number`: queries `agvtool what-version -terse` in a
subprocess; the environment supplies the reported build number string. -/
def _get_build_number : StM String :=
  fun env tr => (tr, Except.ok env.localBuild)

/-- `App.ensure_git_clean`: logs an error and exits with status 1 when the
working tree is dirty. -/
def ensure_git_clean : StM Unit :=
  stBind git_is_clean (fun clean =>
    if clean then stPure ()
    else stBind (logErrorM ("Dirty directory:  uncommitted git changes!")) (fun _ =>
      pyExitM 1))

/-- `App.tag_commit`: logs, then force-tags the current commit through
`execute`. -/
def tag_commit (tag_name : String) : StM Unit :=
  stBind (logInfoM ("Tagging commit as " ++ tag_name)) (fun _ =>
    execute ("git tag -f " ++ tag_name) true)

/-- `App.getLatestBuild`: fetches all builds from the session — an exception
raised by that call (the fetch happens before the `try`) propagates — then
takes the build with the maximal upload date inside `try`, the bare `except`
turning the `ValueError` of `max` on an empty list into `None`. -/
def getLatestBuild : StM (Option Build) :=
  fun env tr =>
    match env.buildsFetch with
    | Except.error e => (tr, Except.error e)
    | Except.ok builds => (tr, Except.ok (pyMax (fun b => b.attributes.uploadedDate) builds))

/-- `App.getLatestVersion`: same shape as `getLatestBuild` over app-store
versions, keyed by creation date. -/
def getLatestVersion : StM (Option AppStoreVersion) :=
  fun env tr =>
    match env.versionsFetch with
    | Except.error e => (tr, Except.error e)
    | Except.ok versions => (tr, Except.ok (pyMax (fun v => v.attributes.createdDate) versions))

/-- The `needNewVersion` flag computed inside `App.version_check`, translated
as the source's sequence of conditional flag assignments. -/
def needNewVersion (projectSemanticVersion latestSemanticVersion : SemanticVersion)
    (appStoreState : String) : Bool :=
  let n := false
  let n := if SemanticVersion.lt projectSemanticVersion latestSemanticVersion then true else n
  let n := if SemanticVersion.eq projectSemanticVersion latestSemanticVersion &&
              appStoreState != "PREPARE_FOR_SUBMISSION" then true else n
  n

/-- First half of `App.version_check` (source lines 239-246), the build-number
reconciliation the design calls `reconcileBuildNumber`: fetch the latest remote
build; if one exists set the local build number to its label plus one through
`agvtool new-version`, otherwise only log a warning. -/
def version_check_build_phase : StM Unit :=
  stBind (logInfoM ("Checking App Store build...")) (fun _ =>
  stBind getLatestBuild (fun latest_build =>
    match latest_build with
    | some b =>
      stBind (pyIntM b.attributes.version) (fun parsed =>
        let new_build := parsed + 1
        stBind (logInfoM ("App Store build is " ++ b.attributes.version ++
            ", setting build number to " ++ toString new_build)) (fun _ =>
          execute ("agvtool new-version -all " ++ toString new_build) true))
    | none => logWarningM ("No builds on App Store!")))

/-- Second half of `App.version_check` (source lines 248-271), the
marketing-version reconciliation the design calls
`reconcileMarketingVersion`: fetch the latest remote app-store version, parse
both version strings, decide `needNewVersion`, and either prompt the operator
for a new marketing version and apply it or log that the versions are good. -/
def version_check_version_phase : StM Unit :=
  stBind (logInfoM ("Checking App Store version...")) (fun _ =>
  stBind getLatestVersion (fun latest_version =>
    match latest_version with
    | some v =>
      stBind (fromStringM v.attributes.versionString) (fun latestSemanticVersion =>
      stBind _get_version_number (fun localVersionString =>
      stBind (fromStringM localVersionString) (fun projectSemanticVersion =>
      stBind (logInfoM ("App Store version is " ++ SemanticVersion.str latestSemanticVersion ++
          " (" ++ v.attributes.appStoreState ++ "), project version is " ++
          SemanticVersion.str projectSemanticVersion)) (fun _ =>
        if needNewVersion projectSemanticVersion latestSemanticVersion
            v.attributes.appStoreState then
          stBind (inputM ("Enter new version: ")) (fun newVersion =>
            execute ("agvtool new-marketing-version -all " ++ newVersion) true)
        else logInfoM ("Versions good.")))))
    | none => logWarningM ("No versions on App Store!")))

/-- `App.version_check`: the build-number phase followed by the
marketing-version phase. -/
def version_check : StM Unit :=
  stBind version_check_build_phase (fun _ => version_check_version_phase)

/-- Contents of the `ExportOptions.plist` file `build_ipa` writes. -/
def exportOptionsPlist : String :=
  "<?xml version=\"1.0\" encoding=\"UTF-8\"?><!DOCTYPE plist PUBLIC \"-//Apple//DTD PLIST 1.0//EN\" \"http://www.apple.com/DTDs/PropertyList-1.0.dtd\"><plist version=\"1.0\"><dict>  <key>method</key><string>app-store</string></dict></plist>"

/-- `App.build_ipa`: create the build directory, archive the scheme, write the
export-options plist, and export the archive. -/
def build_ipa : StM Unit :=
  fun env =>
    (stBind (makedirsM ("./build/")) (fun _ =>
     stBind (execute ("xcodebuild " ++ workspaceParamOf env.cfg ++ " -scheme " ++
         env.cfg.scheme ++ " -destination \x27generic/platform=iOS\x27 -archivePath ./build/" ++
         env.cfg.scheme ++ ".xcarchive archive") true) (fun _ =>
     stBind (writeFileM ("./build/ExportOptions.plist") exportOptionsPlist) (fun _ =>
       execute ("xcodebuild -exportArchive -archivePath ./build/" ++ env.cfg.scheme ++
         ".xcarchive -exportPath ./build/ -exportOptionsPlist ./build/ExportOptions.plist")
         true)))) env

/-- `App.ipaPath`. -/
def ipaPath (cfg : Config) : String :=
  "./build/" ++ cfg.scheme ++ ".ipa"

/-- `App.upload_binary`: upload the ipa through `altool`, then force-tag the
commit with the current marketing version. -/
def upload_binary : StM Unit :=
  fun env =>
    (stBind _get_build_number (fun buildNumber =>
     stBind _get_version_number (fun versionNumber =>
     stBind (execute (joinWith " "
         ["xcrun altool",
          "--upload-package", ipaPath env.cfg,
          "--type", "ios",
          "--asc-public-id", "69a6de6f-82da-47e3-e053-5b8c7c11a4d1",
          "--apple-id", env.cfg.app_id,
          "--bundle-version", buildNumber,
          "--bundle-short-version-string", versionNumber,
          "--bundle-id", env.cfg.bundle_id,
          "--apiKey", "7XV5Z5SNX8",
          "--apiIssuer", "69a6de6f-82da-47e3-e053-5b8c7c11a4d1"]) true) (fun _ =>
     stBind _get_version_number (fun tagName =>
       tag_commit tagName))))) env

/-- `App.upload_metadata`: `deliver` without binary and screenshots
(run non-silently), then force-tag. -/
def upload_metadata : StM Unit :=
  fun env =>
    (stBind (execute (fastlaneCommand ++ " deliver " ++ deliver_options env.cfg ++
        " --skip_binary_upload --skip_screenshots") false) (fun _ =>
     stBind _get_version_number (fun tagName => tag_commit tagName))) env

/-- `App.upload_screenshots`: `deliver` with only screenshots, then
force-tag. -/
def upload_screenshots : StM Unit :=
  fun env =>
    (stBind (execute (fastlaneCommand ++ " deliver " ++ deliver_options env.cfg ++
        " --skip_binary_upload --skip_metadata --force") true) (fun _ =>
     stBind _get_version_number (fun tagName => tag_commit tagName))) env

/-- `App.replace_screenshots`: like `upload_screenshots` with overwrite, then
force-tag. -/
def replace_screenshots : StM Unit :=
  fun env =>
    (stBind (execute (fastlaneCommand ++ " deliver " ++ deliver_options env.cfg ++
        " --skip_binary_upload --skip_metadata --force --overwrite_screenshots") true) (fun _ =>
     stBind _get_version_number (fun tagName => tag_commit tagName))) env

/-- `App.testflight`: the git-clean gate, then version reconciliation, then the
archive build, then the binary upload. -/
def testflight : StM Unit :=
  stBind ensure_git_clean (fun _ =>
  stBind version_check (fun _ =>
  stBind build_ipa (fun _ =>
  upload_binary)))

/-- `App.submit`: submit the already-uploaded build for review, run
non-silently. -/
def submit : StM Unit :=
  fun env =>
    execute (fastlaneCommand ++ " deliver submit_build " ++ deliver_options env.cfg ++
      " --skip_screenshots --skip_metadata") false env

/-- Every method name class `App` defines (transcribed from the class body);
Python resolves `self.name` against this namespace at call time. -/
def appMethodNames : List String :=
  ["__init__", "doAction", "_get_version_number", "_get_build_number",
   "ensure_git_clean", "tag_commit", "getLatestBuild", "getLatestVersion",
   "show_version_information", "version_check", "build_ipa", "ipaPath",
   "upload_binary", "upload_metadata", "upload_screenshots",
   "replace_screenshots", "testflight", "submit", "release", "snapshot",
   "help"]

/-- The attribute lookup `self.increment_build_number` performed by
`App.release`: class `App` defines no method of that name (it is absent from
`appMethodNames`), so Python raises `AttributeError` before anything in the
method body runs. -/
def increment_build_number_lookup : StM Unit :=
  fun _ tr => (tr, Except.error PyExc.attributeError)

/-- `App.release` as written in the source: resolve and call
`self.increment_build_number()`, build the ipa, run `deliver` with
`--submit_for_review`, then force-tag.  The first step's attribute lookup
fails, so the later steps are unreachable. -/
def release : StM Unit :=
  fun env =>
    (stBind increment_build_number_lookup (fun _ =>
     stBind build_ipa (fun _ =>
     stBind (execute (fastlaneCommand ++ " deliver " ++ deliver_options env.cfg ++
         " --submit_for_review --skip_screenshots") true) (fun _ =>
     stBind _get_version_number (fun tagName => tag_commit tagName))))) env

/-- Inner loop of `App.snapshot` over the configured languages for one device:
skip a language that already has more than four screenshots, remap the `no`
locale, run the snapshot lane, and move `no-NO` results back to `no`. -/
def snapshot_language_loop (cfg : Config) (derived_data_dir device : String) :
    List String → StM Unit
  | [] => stPure ()
  | language :: rest =>
    stBind (globCountM (fastlaneCommand ++ "/screenshots/" ++ language ++ "/" ++
        device ++ "*")) (fun count =>
      if count > 4 then
        stBind (logWarningM ("Skipped " ++ padR device 40 ++ "    " ++ padR language 6))
          (fun _ => snapshot_language_loop cfg derived_data_dir device rest)
      else
        let language := if language = "no" then "no-NO" else language
        stBind (execute ("nice -n 20 fastlane run snapshot " ++
            snapshotWorkspaceParamOf cfg ++ " scheme:\"" ++ cfg.scheme ++
            "\" devices:\"" ++ device ++ "\" languages:\"" ++ language ++
            "\" test_without_building:true derived_data_path:\"" ++
            derived_data_dir ++ "\"") true) (fun _ =>
        stBind (if language = "no-NO" then
            stBind (execute ("rsync -r fastlane/screenshots/no-NO fastlane/screenshots/no")
              true) (fun _ => execute ("rm -rf fastlane/screenshots/no-NO") true)
          else stPure ()) (fun _ =>
          snapshot_language_loop cfg derived_data_dir device rest)))

/-- Outer loop of `App.snapshot` over the configured devices. -/
def snapshot_device_loop (cfg : Config) (derived_data_dir : String) :
    List String → StM Unit
  | [] => stPure ()
  | device :: rest =>
    stBind (snapshot_language_loop cfg derived_data_dir device cfg.screenshot_languages)
      (fun _ => snapshot_device_loop cfg derived_data_dir rest)

/-- `App.snapshot`: create the cache directory, build the app bundle once for
the first configured device (`devices[0]` raises `IndexError` when the device
list is empty), then capture screenshots per device and language. -/
def snapshot : StM Unit :=
  fun env =>
    (let derived_data_dir := env.homeDir ++ "/.cache/pyfastlane/" ++ temp_dir_name env.cfg
     stBind (makedirsM derived_data_dir) (fun _ =>
       match env.cfg.screenshot_devices with
       | [] => fun _ tr => (tr, Except.error PyExc.indexError)
       | device :: _ =>
         stBind (execute ("xcodebuild " ++ workspaceParamOf env.cfg ++ " -scheme \"" ++
             env.cfg.scheme ++ "\" -derivedDataPath " ++ derived_data_dir ++
             " -destination \"platform=iOS Simulator,name=" ++ device ++
             ",OS=14.2\" FASTLANE_SNAPSHOT=YES FASTLANE_LANGUAGE=en-US build-for-testing")
             true) (fun _ =>
           snapshot_device_loop env.cfg derived_data_dir env.cfg.screenshot_devices))) env

/-- `App.show_version_information`: print the version table from the project
state and the two latest remote records. -/
def show_version_information : StM Unit :=
  fun env =>
    (stBind (printM (padR ("") 15 ++ " " ++ padR ("Version") 12 ++ " " ++ padR ("Date") 25 ++
        " " ++ padR ("Build") 12 ++ " " ++ padR ("Date") 25)) (fun _ =>
     stBind _get_version_number (fun projectVersion =>
     stBind _get_build_number (fun projectBuild =>
     stBind (printM (padR ("Project") 15 ++ " " ++ padR projectVersion 12 ++ " " ++
        padR ("") 25 ++ " " ++ padR projectBuild 12)) (fun _ =>
     stBind getLatestBuild (fun latest_build =>
       let app_store_build :=
         match latest_build with
         | some b => b.attributes.version
         | none => "None"
       let app_store_build_date :=
         match latest_build with
         | some b => env.localTime b.attributes.uploadedDate
         | none => ""
       stBind getLatestVersion (fun latest_version =>
         let app_store_version :=
           match latest_version with
           | some v => v.attributes.versionString
           | none => "None"
         let app_store_version_date :=
           match latest_version with
           | some v => env.localTime v.attributes.createdDate
           | none => ""
         printM (padR ("App Store") 15 ++ " " ++ padR app_store_version 12 ++ " " ++
           padR app_store_version_date 25 ++ " " ++ padR app_store_build 12 ++ " " ++
           padR app_store_build_date 25)))))))) env

/-- Name and docstring of every entry of the `self.actions` dict, in its
insertion order; `App.help` prints exactly this listing. -/
def actionDocs : List (String × String) :=
  [("versions", "Shows version information from the project and from App Store Connect"),
   ("version_check", "Checks to make sure the project\x27s version settings are up-to-date"),
   ("build", "Builds the .ipa file"),
   ("upload_binary", "Uploads the .ipa file to App Store Connect"),
   ("upload_metadata", "Uploads the metadata to App Store Connect"),
   ("upload_screenshots", "Uploads screenshots to App Store Connect"),
   ("replace_screenshots", "Replace all screenshots to App Store Connect"),
   ("testflight", "Increments build number, builds the .ipa file, then uploads the .ipa file to TestFlight"),
   ("submit", "Submits the latest build for the latest version number on App Store Connect"),
   ("release", "Increments build number, builds the .ipa file, uploads the metadata and .ipa file, and submits for release on App Store Connect"),
   ("snapshot", "Capture screenshots using Snapshot"),
   ("help", "Shows available actions")]

/-- `App.help`: print the header and one `name: docstring` line per registered
action (the source's loop over the dict appends exactly these lines in
insertion order). -/
def help : StM Unit :=
  fun _ tr =>
    ({ tr with printed := tr.printed ++ ("Available actions:" ::
        actionDocs.map (fun nd => padR nd.1 25 ++ ": " ++ nd.2)) }, Except.ok ())

/-- The `self.actions` dict built in the constructor: the same keys in the same
order as `actionDocs`, each bound to the method it dispatches to. -/
def actionRegistry : List (String × StM Unit) :=
  [("versions", show_version_information),
   ("version_check", version_check),
   ("build", build_ipa),
   ("upload_binary", upload_binary),
   ("upload_metadata", upload_metadata),
   ("upload_screenshots", upload_screenshots),
   ("replace_screenshots", replace_screenshots),
   ("testflight", testflight),
   ("submit", submit),
   ("release", release),
   ("snapshot", snapshot),
   ("help", help)]

/-- Dict lookup `self.actions[action_name]`: `none` models the `KeyError` the
subscript raises for an unknown key. -/
def findAction (name : String) : List (String × StM Unit) → Option (StM Unit)
  | [] => none
  | (n, a) :: rest => if n = name then some a else findAction name rest

/-- The `except KeyError` handler of `App.doAction`: log the unknown action and
print the help listing. -/
def unknownActionFallback (name : String) : StM Unit :=
  fun env tr =>
    help env (logMsg tr LogLevel.error ("Unknown action \"" ++ name ++ "\""))

/-- `App.doAction`: look the name up in the actions dict and call the method.
The `try` block spans both the subscript and the call, and `except KeyError`
catches only `KeyError`, so an unknown name and a `KeyError` escaping a known
action take the identical fallback path, while every other exception
propagates. -/
def doAction (name : String) : StM Unit :=
  fun env tr =>
    match findAction name actionRegistry with
    | some act =>
      match act env tr with
      | (tr2, Except.error PyExc.keyError) => unknownActionFallback name env tr2
      | r => r
    | none => unknownActionFallback name env tr

/-- Modelled from the spec: the total order of section 3 — compare major, then
minor, then patch, each by integer value.  Stated over naturals so the
source's comparison can be measured against the specified one. -/
def specIntLexLt (a b : Nat × Nat × Nat) : Bool :=
  if a.1 < b.1 then true
  else if b.1 < a.1 then false
  else if a.2.1 < b.2.1 then true
  else if b.2.1 < a.2.1 then false
  else a.2.2 < b.2.2

/-! Concrete environments used to instantiate the theorems below. -/

/-- A minimal well-formed configuration. -/
def cfg0 : Config :=
  { workspace := none, project := "./App.xcodeproj", scheme := "App",
    app_id := "123", bundle_id := "com.example.app", username := "u",
    team_name := "T", uses_encryption := none, uses_idfa := none,
    screenshot_devices := [], screenshot_languages := [], path := "." }

/-- A quiet baseline environment: clean tree, every command succeeds, the
distribution service knows no builds and no versions. -/
def env0 : Env :=
  { cfg := cfg0, gitAvailable := true, gitStatusLines := [],
    cmdExit := fun _ => 0, buildsFetch := Except.ok [],
    versionsFetch := Except.ok [], localVersion := "1.0.0", localBuild := "1",
    userInput := "2.0.0", homeDir := "/root", globCount := fun _ => 0,
    localTime := fun s => s }

/-- Environment whose latest remote build carries the label `42`. -/
def envBuild42 : Env :=
  { env0 with
      buildsFetch :=
        Except.ok [Build.mk (BuildAttributes.mk ("42") ("2021-01-01T00:00:00"))] }

/-- Environment where the remote version is `1.1.5` in state
`PREPARE_FOR_SUBMISSION` while the project is already at `1.2.0`. -/
def envC2 : Env :=
  { env0 with
      versionsFetch :=
        Except.ok [AppStoreVersion.mk (VersionAttributes.mk ("1.1.5")
          ("2021-01-01T00:00:00") ("PREPARE_FOR_SUBMISSION"))],
      localVersion := "1.2.0", userInput := "1.3.0" }

/-- Environment where both distribution-service calls raise. -/
def envRemoteDown : Env :=
  { env0 with
      buildsFetch := Except.error PyExc.remoteUnavailable,
      versionsFetch := Except.error PyExc.remoteUnavailable }

/-- Environment where every external command exits with status 1. -/
def envFailCmd : Env :=
  { env0 with cmdExit := fun _ => 1 }

/-- Environment with uncommitted changes in the working tree. -/
def envDirty : Env :=
  { env0 with gitStatusLines := [" M file.txt"] }

/-- Environment where the session's build query raises `KeyError` from inside
the external collaborator. -/
def envKeyErr : Env :=
  { env0 with buildsFetch := Except.error PyExc.keyError }

/-! Theorems settling the claims. -/

/-- C1: the claim states that the comparison of parsed versions is a strict
total order, lexicographic by (major, minor, patch) with integer-valued
components.  The code violates it: for the parsed versions a = 1.2.0 and
b = 1.1.5 both a < b and b < a hold (the duplicated `major` re-check in
`__lt__` falls through to the patch comparison when minor is larger), killing
trichotomy; moreover 1.10.0 < 1.9.0 holds because the parsed components are
compared as strings, not integers, while the specified integer order says
otherwise on both pairs. -/
theorem C1_lt_not_a_strict_total_order :
    SemanticVersion.fromString ("1.2.0") =
      Except.ok { major := "1", minor := "2", patch := "0" } ∧
    SemanticVersion.fromString ("1.1.5") =
      Except.ok { major := "1", minor := "1", patch := "5" } ∧
    SemanticVersion.lt { major := "1", minor := "2", patch := "0" }
      { major := "1", minor := "1", patch := "5" } = true ∧
    SemanticVersion.lt { major := "1", minor := "1", patch := "5" }
      { major := "1", minor := "2", patch := "0" } = true ∧
    SemanticVersion.eq { major := "1", minor := "2", patch := "0" }
      { major := "1", minor := "1", patch := "5" } = false ∧
    SemanticVersion.lt { major := "1", minor := "10", patch := "0" }
      { major := "1", minor := "9", patch := "0" } = true ∧
    specIntLexLt (1, 2, 0) (1, 1, 5) = false ∧
    specIntLexLt (1, 10, 0) (1, 9, 0) = false :=
  ⟨rfl, rfl, rfl, rfl, rfl, rfl, rfl, rfl⟩

/-- C2: the claim states that `needNewVersion` is false whenever the local
version is strictly ahead of the remote one.  The code violates it: with the
local project at 1.2.0 and the remote at 1.1.5 still in
`PREPARE_FOR_SUBMISSION` — locally strictly ahead in the specified integer
order, as the `specIntLexLt` conjuncts show — `needNewVersion` is computed as
true and the marketing-version phase prompts for and applies a new version
(the `agvtool new-marketing-version` call is issued). -/
theorem C2_new_version_requested_when_local_ahead :
    (version_check_version_phase envC2 emptyTrace).1.cmds =
      [fullCommand ("agvtool new-marketing-version -all 1.3.0") true] ∧
    (version_check_version_phase envC2 emptyTrace).1.printed = ["Enter new version: "] ∧
    needNewVersion { major := "1", minor := "2", patch := "0" }
      { major := "1", minor := "1", patch := "5" } ("PREPARE_FOR_SUBMISSION") = true ∧
    specIntLexLt (1, 1, 5) (1, 2, 0) = true ∧
    specIntLexLt (1, 2, 0) (1, 1, 5) = false :=
  ⟨rfl, rfl, rfl, rfl, rfl⟩

/-- C3: whenever the distribution service reports builds and the latest one
carries the numeric label `n`, the build-number phase of `version_check` logs
and then issues exactly `agvtool new-version -all (n+1)`, independently of the
prior local build number (the environment, and with it `agvtool what-version`,
is arbitrary); whenever the service reports zero builds the phase only logs a
warning, leaves the trace otherwise untouched and returns without error. -/
theorem C3_reconcile_build_number :
    (∀ (env : Env) (tr : Trace) (builds : List Build) (b : Build) (n : Nat),
      env.buildsFetch = Except.ok builds →
      pyMax (fun x => x.attributes.uploadedDate) builds = some b →
      pyInt b.attributes.version = some n →
      version_check_build_phase env tr =
        execute ("agvtool new-version -all " ++ toString (n + 1)) true env
          (logMsg (logMsg tr LogLevel.info ("Checking App Store build..."))
            LogLevel.info ("App Store build is " ++ b.attributes.version ++
              ", setting build number to " ++ toString (n + 1)))) ∧
    (∀ (env : Env) (tr : Trace),
      env.buildsFetch = Except.ok [] →
      version_check_build_phase env tr =
        (logMsg (logMsg tr LogLevel.info ("Checking App Store build..."))
          LogLevel.warning ("No builds on App Store!"), Except.ok ())) := by
  constructor
  · intro env tr builds b n h1 h2 h3
    simp [version_check_build_phase, stBind, logInfoM, getLatestBuild, pyIntM, h1, h2, h3]
  · intro env tr h1
    simp [version_check_build_phase, stBind, logInfoM, getLatestBuild, pyMax, h1, logWarningM]

/-- C3 witness: with remote build label 42 the phase issues
`agvtool new-version -all 43`; with no remote builds it only warns. -/
theorem C3_reconcile_build_number_witness :
    version_check_build_phase envBuild42 emptyTrace =
      execute ("agvtool new-version -all 43") true envBuild42
        (logMsg (logMsg emptyTrace LogLevel.info ("Checking App Store build..."))
          LogLevel.info ("App Store build is 42, setting build number to 43")) ∧
    version_check_build_phase env0 emptyTrace =
      (logMsg (logMsg emptyTrace LogLevel.info ("Checking App Store build..."))
        LogLevel.warning ("No builds on App Store!"), Except.ok ()) :=
  ⟨C3_reconcile_build_number.1 envBuild42 emptyTrace _ _ 42 rfl rfl rfl,
   C3_reconcile_build_number.2 env0 emptyTrace rfl⟩

/-- C4 counterexample: the claim states that `parse("a.2.3")` fails; in the
code `fromString` performs no numeric validation, so the call succeeds and
silently yields a `SemanticVersion` whose components are the raw strings. -/
theorem C4_counterexample_nonnumeric_accepted :
    SemanticVersion.fromString ("a.2.3") =
      Except.ok { major := "a", minor := "2", patch := "3" } :=
  rfl

/-- C4 amended: parsing fails (with `TypeError` from the dataclass
constructor, not a dedicated parse error) exactly when the string does not
split into three dot-separated components; a three-component string is always
accepted, with no numeric check, so `parse("1.2")` and `parse("1.2.3.4")`
fail while `parse("a.2.3")` is silently accepted. -/
theorem C4_parse_checks_component_count_only :
    (∀ (s : String) (v : SemanticVersion),
      SemanticVersion.fromString s = Except.ok v ↔
      pySplit ('.') s = [v.major, v.minor, v.patch]) ∧
    SemanticVersion.fromString ("1.2") = Except.error PyExc.typeError ∧
    SemanticVersion.fromString ("1.2.3.4") = Except.error PyExc.typeError ∧
    SemanticVersion.fromString ("a.2.3") =
      Except.ok { major := "a", minor := "2", patch := "3" } := by
  refine ⟨?_, rfl, rfl, rfl⟩
  intro s v
  obtain ⟨vmajor, vminor, vpatch⟩ := v
  rcases hs : pySplit ('.') s with _ | ⟨a, _ | ⟨b, _ | ⟨c, _ | ⟨d, t⟩⟩⟩⟩ <;>
    simp [SemanticVersion.fromString, hs, SemanticVersion.mk.injEq, and_assoc]

/-- C4 amended witness: a three-component numeric string parses, a
two-component string raises. -/
theorem C4_parse_checks_component_count_only_witness :
    SemanticVersion.fromString ("7.8.9") =
      Except.ok { major := "7", minor := "8", patch := "9" } ∧
    SemanticVersion.fromString ("1.2") = Except.error PyExc.typeError :=
  ⟨(C4_parse_checks_component_count_only.1 ("7.8.9")
      { major := "7", minor := "8", patch := "9" }).2 rfl,
   C4_parse_checks_component_count_only.2.1⟩

/-- C5: a failing distribution-service call propagates out of
`getLatestBuild` / `getLatestVersion` unchanged (the fetch happens before the
`try`, so the bare `except` never sees it) and aborts `version_check`, while a
successful call returning zero records yields the non-error result `none`;
the two outcomes are never conflated. -/
theorem C5_remote_failure_distinct_from_no_records :
    ∀ (env : Env) (tr : Trace),
      (∀ e, env.buildsFetch = Except.error e →
        getLatestBuild env tr = (tr, Except.error e)) ∧
      (env.buildsFetch = Except.ok [] →
        getLatestBuild env tr = (tr, Except.ok none)) ∧
      (∀ e, env.versionsFetch = Except.error e →
        getLatestVersion env tr = (tr, Except.error e)) ∧
      (env.versionsFetch = Except.ok [] →
        getLatestVersion env tr = (tr, Except.ok none)) ∧
      (∀ e, env.buildsFetch = Except.error e →
        (version_check env tr).2 = Except.error e) := by
  intro env tr
  refine ⟨?_, ?_, ?_, ?_, ?_⟩
  · intro e h
    simp [getLatestBuild, h]
  · intro h
    simp [getLatestBuild, h, pyMax]
  · intro e h
    simp [getLatestVersion, h]
  · intro h
    simp [getLatestVersion, h, pyMax]
  · intro e h
    simp [version_check, version_check_build_phase, stBind, logInfoM, getLatestBuild, h]

/-- C5 witness: with the service down both queries surface the error and
`version_check` is fatal; with a healthy service holding zero records both
queries return `none` without error. -/
theorem C5_remote_failure_distinct_from_no_records_witness :
    getLatestBuild envRemoteDown emptyTrace =
      (emptyTrace, Except.error PyExc.remoteUnavailable) ∧
    getLatestVersion envRemoteDown emptyTrace =
      (emptyTrace, Except.error PyExc.remoteUnavailable) ∧
    (version_check envRemoteDown emptyTrace).2 =
      Except.error PyExc.remoteUnavailable ∧
    getLatestBuild env0 emptyTrace = (emptyTrace, Except.ok none) ∧
    getLatestVersion env0 emptyTrace = (emptyTrace, Except.ok none) :=
  ⟨(C5_remote_failure_distinct_from_no_records envRemoteDown emptyTrace).1 _ rfl,
   (C5_remote_failure_distinct_from_no_records envRemoteDown emptyTrace).2.2.1 _ rfl,
   (C5_remote_failure_distinct_from_no_records envRemoteDown emptyTrace).2.2.2.2 _ rfl,
   (C5_remote_failure_distinct_from_no_records env0 emptyTrace).2.1 rfl,
   (C5_remote_failure_distinct_from_no_records env0 emptyTrace).2.2.2.1 rfl⟩

/-- C6: the claim states that the release pipeline's first stage reconciles
the build number and the later stages then run.  The code violates it: the
first statement of `App.release` calls `self.increment_build_number`, a
method class `App` never defines, so every invocation of the action raises
`AttributeError` immediately — no command is executed, and the dispatcher
(whose handler catches only `KeyError`) lets the exception escape. -/
theorem C6_release_calls_undefined_method :
    (appMethodNames.contains ("increment_build_number")) = false ∧
    ∀ (env : Env) (tr : Trace),
      release env tr = (tr, Except.error PyExc.attributeError) ∧
      doAction ("release") env tr = (tr, Except.error PyExc.attributeError) :=
  ⟨rfl, fun _ _ => ⟨rfl, rfl⟩⟩

/-- C7: a failing external command is fatal — sequencing anything after a
failed `execute` is the same as the failed `execute` alone (the continuation
never runs) and the result is `exit(1)`; and a `release` run never adds any
command to the trace at all, so in particular no upload/submit command and no
`git tag` is ever issued after a failed build stage of `release`. -/
theorem C7_failed_command_is_fatal :
    (∀ (cmd : String) (silent : Bool) (rest : Unit → StM Unit) (env : Env) (tr : Trace),
      env.cmdExit (fullCommand cmd silent) ≠ 0 →
      stBind (execute cmd silent) rest env tr = execute cmd silent env tr ∧
      (execute cmd silent env tr).2 = Except.error (PyExc.systemExit 1)) ∧
    (∀ (env : Env) (tr : Trace), (release env tr).1.cmds = tr.cmds) := by
  constructor
  · intro cmd silent rest env tr h
    constructor
    · simp [execute, stBind, h]
    · simp [execute, h]
  · intro env tr
    rfl

/-- C7 witness: under an environment where every command fails, a failed
command followed by another command equals the failed command alone, the
result is `exit(1)`, and a release run issues no command. -/
theorem C7_failed_command_is_fatal_witness :
    stBind (execute ("false") true) (fun _ => execute ("echo after") true) envFailCmd
        emptyTrace =
      execute ("false") true envFailCmd emptyTrace ∧
    (execute ("false") true envFailCmd emptyTrace).2 =
      Except.error (PyExc.systemExit 1) ∧
    (release envFailCmd emptyTrace).1.cmds = [] :=
  ⟨(C7_failed_command_is_fatal.1 ("false") true (fun _ => execute ("echo after") true)
      envFailCmd emptyTrace (by decide)).1,
   (C7_failed_command_is_fatal.1 ("false") true (fun _ => execute ("echo after") true)
      envFailCmd emptyTrace (by decide)).2,
   C7_failed_command_is_fatal.2 envFailCmd emptyTrace⟩

/-- C8: a `testflight` run on a dirty working tree stops at the git-clean
gate: the whole run equals the gate's two log records plus `exit(1)` — no
command is handed to the shell, so reconciliation, build and upload never
happen. -/
theorem C8_testflight_dirty_tree_aborts_first :
    ∀ (env : Env) (tr : Trace),
      env.gitAvailable = true →
      env.gitStatusLines ≠ [] →
      testflight env tr =
        ({ tr with logs := tr.logs ++
            [(LogLevel.info, "git status --porcelain"),
             (LogLevel.error, "Dirty directory:  uncommitted git changes!")] },
          Except.error (PyExc.systemExit 1)) := by
  intro env tr hg hd
  obtain ⟨l, ls, hls⟩ := List.exists_cons_of_ne_nil hd
  simp [testflight, stBind, ensure_git_clean, git_is_clean, hg, hls, logErrorM,
    pyExitM, logMsg, List.append_assoc]

/-- C8 witness: the dirty-tree environment aborts the `testflight` run with
only the gate's log records and exit status 1. -/
theorem C8_testflight_dirty_tree_aborts_first_witness :
    testflight envDirty emptyTrace =
      ({ emptyTrace with logs :=
          [(LogLevel.info, "git status --porcelain"),
           (LogLevel.error, "Dirty directory:  uncommitted git changes!")] },
        Except.error (PyExc.systemExit 1)) :=
  C8_testflight_dirty_tree_aborts_first envDirty emptyTrace rfl (by simp [envDirty, env0])

/-- C9: dispatching a name absent from the actions dict logs the unknown
action and prints the complete help listing — the header plus one line per
registered action with its docstring — and returns without raising; the
listing covers exactly the registered action names. -/
theorem C9_unknown_action_logs_and_prints_help :
    ∀ (env : Env) (tr : Trace) (name : String),
      findAction name actionRegistry = none →
      doAction name env tr =
        ({ tr with
            logs := tr.logs ++ [(LogLevel.error, "Unknown action \"" ++ name ++ "\"")],
            printed := tr.printed ++ ("Available actions:" ::
              actionDocs.map (fun nd => padR nd.1 25 ++ ": " ++ nd.2)) },
          Except.ok ()) ∧
      actionRegistry.map (fun p => p.1) = actionDocs.map (fun p => p.1) := by
  intro env tr name h
  constructor
  · simp [doAction, h, unknownActionFallback, help, logMsg]
  · rfl

/-- C9 witness: dispatching the unregistered name `frobnicate` logs the
unknown action, prints the full listing, and succeeds. -/
theorem C9_unknown_action_logs_and_prints_help_witness :
    doAction ("frobnicate") env0 emptyTrace =
      ({ emptyTrace with
          logs := [(LogLevel.error, "Unknown action \"frobnicate\"")],
          printed := "Available actions:" ::
            actionDocs.map (fun nd => padR nd.1 25 ++ ": " ++ nd.2) },
        Except.ok ()) ∧
    actionRegistry.map (fun p => p.1) = actionDocs.map (fun p => p.1) :=
  C9_unknown_action_logs_and_prints_help env0 emptyTrace ("frobnicate") rfl

/-- C10: when a registered action's own execution raises `KeyError`, the
dispatcher's `except KeyError` handler treats it exactly like an unknown
name: the run continues from the action's partial trace with the same
"Unknown action" log and help listing, and returns without error — at the
interface the failure is indistinguishable from a typo. -/
theorem C10_keyerror_inside_action_masked_as_unknown :
    ∀ (env : Env) (tr : Trace) (name : String) (act : StM Unit),
      findAction name actionRegistry = some act →
      (act env tr).2 = Except.error PyExc.keyError →
      doAction name env tr = unknownActionFallback name env (act env tr).1 ∧
      (doAction name env tr).2 = Except.ok () := by
  intro env tr name act hf hk
  rcases hp : act env tr with ⟨tr2, r⟩
  rw [hp] at hk
  simp only at hk
  subst hk
  constructor
  · simp [doAction, hf, hp]
  · simp [doAction, hf, hp, unknownActionFallback, help]

/-- C10 witness: a `KeyError` raised inside the external session during the
registered `version_check` action is caught by the dispatcher, which logs
"Unknown action" and prints the help listing as if the name were a typo. -/
theorem C10_keyerror_inside_action_masked_as_unknown_witness :
    doAction ("version_check") envKeyErr emptyTrace =
      unknownActionFallback ("version_check") envKeyErr
        (version_check envKeyErr emptyTrace).1 ∧
    (doAction ("version_check") envKeyErr emptyTrace).2 = Except.ok () :=
  C10_keyerror_inside_action_masked_as_unknown envKeyErr emptyTrace
    ("version_check") version_check rfl rfl

end Pyfastlane
